import Mathlib

/-!
# GPU device state machine (`gpu_device.c`)

A shallow embedding of the four-state device controller.  Every C function
takes a pointer to a `GpuDevice` and mutates it in place; here each one is a
function from the device before the call to the pair of the value handed
back to the caller and the device after the call.  A `void` function hands
back `Unit`.

A C `enum` is an integer type, so a `GpuState` is embedded as a raw integer
and the four enumerators as the constants 0, 1, 2, 3.  The closed-set
property of the state field is then a theorem about the code, not a
consequence of the choice of type.
-/

namespace GpuDeviceC

/-! ## Data model -/

/-- The `GpuState` enum, as the integer type C makes of it. -/
abbrev GpuState := Int

/-- GPU is waiting for a command (first enumerator, value 0). -/
def WAITING_FOR_COMMAND : GpuState := 0

/-- GPU is processing the command (second enumerator, value 1). -/
def PROCESSING_COMMAND : GpuState := 1

/-- GPU is executing the task (third enumerator, value 2). -/
def EXECUTING_TASK : GpuState := 2

/-- GPU has completed the task (fourth enumerator, value 3). -/
def COMPLETED_TASK : GpuState := 3

/-- The `GpuDevice` struct: one field, the current state. -/
structure GpuDevice where
  current_state : GpuState
  deriving DecidableEq, Repr

/-! ## Operations -/

/-- Embeds `void initGpuDevice(GpuDevice *gpu)`: an unconditional store of the
initial state. -/
def initGpuDevice (gpu : GpuDevice) : Unit × GpuDevice :=
  ((), { gpu with current_state := WAITING_FOR_COMMAND })

/-- Embeds `void receiveCommand(GpuDevice *gpu)`: one guarded store. -/
def receiveCommand (gpu : GpuDevice) : Unit × GpuDevice :=
  if gpu.current_state = WAITING_FOR_COMMAND then
    ((), { gpu with current_state := PROCESSING_COMMAND })
  else
    ((), gpu)

/-- Embeds `void processCommand(GpuDevice *gpu)`: one guarded store. -/
def processCommand (gpu : GpuDevice) : Unit × GpuDevice :=
  if gpu.current_state = PROCESSING_COMMAND then
    ((), { gpu with current_state := EXECUTING_TASK })
  else
    ((), gpu)

/-- Embeds `void completeTask(GpuDevice *gpu)`: one guarded store. -/
def completeTask (gpu : GpuDevice) : Unit × GpuDevice :=
  if gpu.current_state = EXECUTING_TASK then
    ((), { gpu with current_state := COMPLETED_TASK })
  else
    ((), gpu)

/-- Embeds `void resetState(GpuDevice *gpu)`: one guarded store. -/
def resetState (gpu : GpuDevice) : Unit × GpuDevice :=
  if gpu.current_state = COMPLETED_TASK then
    ((), { gpu with current_state := WAITING_FOR_COMMAND })
  else
    ((), gpu)

/-- Embeds `bool isValidState(GpuDevice *gpu)`: the four-way disjunction of the source,
returned together with the device the pointer refers to after the call. -/
def isValidState (gpu : GpuDevice) : Bool × GpuDevice :=
  (gpu.current_state == WAITING_FOR_COMMAND ||
   gpu.current_state == PROCESSING_COMMAND ||
   gpu.current_state == EXECUTING_TASK ||
   gpu.current_state == COMPLETED_TASK, gpu)

/-! ## Call sequences

The source has no driver; a caller is a finite list of calls to the four
transition functions, run left to right on one device. -/

/-- One call to a transition function. -/
inductive Call where
  | receiveCommand
  | processCommand
  | completeTask
  | resetState
  deriving DecidableEq, Repr

/-- The device after one call (the `void` result is dropped). -/
def Call.exec : Call → GpuDevice → GpuDevice
  | .receiveCommand, gpu => (GpuDeviceC.receiveCommand gpu).2
  | .processCommand, gpu => (GpuDeviceC.processCommand gpu).2
  | .completeTask, gpu => (GpuDeviceC.completeTask gpu).2
  | .resetState, gpu => (GpuDeviceC.resetState gpu).2

/-- The device after a list of calls, first call first. -/
def runCalls (calls : List Call) (gpu : GpuDevice) : GpuDevice :=
  calls.foldl (fun g c => c.exec g) gpu

/-- The state field holds one of the four enumerators. -/
def IsEnumerator (s : GpuState) : Prop :=
  s = WAITING_FOR_COMMAND ∨ s = PROCESSING_COMMAND ∨ s = EXECUTING_TASK ∨ s = COMPLETED_TASK

instance (s : GpuState) : Decidable (IsEnumerator s) := by
  unfold IsEnumerator; infer_instance

/-! ## Shared lemmas -/

theorem runCalls_nil (gpu : GpuDevice) : runCalls [] gpu = gpu := rfl

theorem runCalls_cons (c : Call) (cs : List Call) (gpu : GpuDevice) :
    runCalls (c :: cs) gpu = runCalls cs (c.exec gpu) := rfl

theorem exec_isEnumerator (c : Call) (gpu : GpuDevice)
    (h : IsEnumerator gpu.current_state) : IsEnumerator (c.exec gpu).current_state := by
  cases c <;>
    simp only [Call.exec, GpuDeviceC.receiveCommand, GpuDeviceC.processCommand,
      GpuDeviceC.completeTask, GpuDeviceC.resetState] <;>
    split <;> first | exact h | simp [IsEnumerator]

theorem runCalls_isEnumerator (calls : List Call) (gpu : GpuDevice)
    (h : IsEnumerator gpu.current_state) :
    IsEnumerator (runCalls calls gpu).current_state := by
  induction calls generalizing gpu with
  | nil => exact h
  | cons c cs ih => exact ih (c.exec gpu) (exec_isEnumerator c gpu h)

theorem exec_completed_of_ne_reset (c : Call) (gpu : GpuDevice)
    (h : gpu.current_state = COMPLETED_TASK) (hc : c ≠ Call.resetState) :
    (c.exec gpu).current_state = COMPLETED_TASK := by
  cases c
  · simp [Call.exec, GpuDeviceC.receiveCommand, h, COMPLETED_TASK, WAITING_FOR_COMMAND]
  · simp [Call.exec, GpuDeviceC.processCommand, h, COMPLETED_TASK, PROCESSING_COMMAND]
  · simp [Call.exec, GpuDeviceC.completeTask, h, COMPLETED_TASK, EXECUTING_TASK]
  · exact absurd rfl hc

theorem runCalls_completed_of_no_reset (calls : List Call) (gpu : GpuDevice)
    (h : gpu.current_state = COMPLETED_TASK) (hn : Call.resetState ∉ calls) :
    (runCalls calls gpu).current_state = COMPLETED_TASK := by
  induction calls generalizing gpu with
  | nil => exact h
  | cons c cs ih =>
    rw [runCalls_cons]
    have hc : c ≠ Call.resetState := fun e => hn (e ▸ List.mem_cons_self _ _)
    exact ih (c.exec gpu) (exec_completed_of_ne_reset c gpu h hc)
      (fun hm => hn (List.mem_cons_of_mem _ hm))

/-! ## Transition contract -/

/-- C1: each transition called in its required source state moves the device to
its target state: receiveCommand from WAITING_FOR_COMMAND to PROCESSING_COMMAND,
processCommand from PROCESSING_COMMAND to EXECUTING_TASK, completeTask from
EXECUTING_TASK to COMPLETED_TASK, resetState from COMPLETED_TASK to
WAITING_FOR_COMMAND. -/
theorem transition_from_source_reaches_target (gpu : GpuDevice) :
    (gpu.current_state = WAITING_FOR_COMMAND →
      (receiveCommand gpu).2.current_state = PROCESSING_COMMAND) ∧
    (gpu.current_state = PROCESSING_COMMAND →
      (processCommand gpu).2.current_state = EXECUTING_TASK) ∧
    (gpu.current_state = EXECUTING_TASK →
      (completeTask gpu).2.current_state = COMPLETED_TASK) ∧
    (gpu.current_state = COMPLETED_TASK →
      (resetState gpu).2.current_state = WAITING_FOR_COMMAND) := by
  refine ⟨?_, ?_, ?_, ?_⟩ <;> intro h
  · simp [receiveCommand, h]
  · simp [processCommand, h]
  · simp [completeTask, h]
  · simp [resetState, h]

theorem transition_from_source_reaches_target_witness :
    (receiveCommand ⟨WAITING_FOR_COMMAND⟩).2.current_state = PROCESSING_COMMAND ∧
    (processCommand ⟨PROCESSING_COMMAND⟩).2.current_state = EXECUTING_TASK ∧
    (completeTask ⟨EXECUTING_TASK⟩).2.current_state = COMPLETED_TASK ∧
    (resetState ⟨COMPLETED_TASK⟩).2.current_state = WAITING_FOR_COMMAND :=
  ⟨(transition_from_source_reaches_target ⟨WAITING_FOR_COMMAND⟩).1 rfl,
   (transition_from_source_reaches_target ⟨PROCESSING_COMMAND⟩).2.1 rfl,
   (transition_from_source_reaches_target ⟨EXECUTING_TASK⟩).2.2.1 rfl,
   (transition_from_source_reaches_target ⟨COMPLETED_TASK⟩).2.2.2 rfl⟩

/-- C2: a transition called outside its required source state leaves the state
as it was, for every raw state value; in particular processCommand on a device
in WAITING_FOR_COMMAND leaves it there and completeTask on a device in
COMPLETED_TASK leaves it there. -/
theorem transition_off_source_keeps_state (gpu : GpuDevice) :
    (gpu.current_state ≠ WAITING_FOR_COMMAND →
      (receiveCommand gpu).2.current_state = gpu.current_state) ∧
    (gpu.current_state ≠ PROCESSING_COMMAND →
      (processCommand gpu).2.current_state = gpu.current_state) ∧
    (gpu.current_state ≠ EXECUTING_TASK →
      (completeTask gpu).2.current_state = gpu.current_state) ∧
    (gpu.current_state ≠ COMPLETED_TASK →
      (resetState gpu).2.current_state = gpu.current_state) ∧
    (gpu.current_state = WAITING_FOR_COMMAND →
      (processCommand gpu).2.current_state = WAITING_FOR_COMMAND) ∧
    (gpu.current_state = COMPLETED_TASK →
      (completeTask gpu).2.current_state = COMPLETED_TASK) := by
  refine ⟨?_, ?_, ?_, ?_, ?_, ?_⟩ <;> intro h
  · simp [receiveCommand, h]
  · simp [processCommand, h]
  · simp [completeTask, h]
  · simp [resetState, h]
  · simp [processCommand, h, WAITING_FOR_COMMAND, PROCESSING_COMMAND]
  · simp [completeTask, h, COMPLETED_TASK, EXECUTING_TASK]

theorem transition_off_source_keeps_state_witness :
    (receiveCommand ⟨EXECUTING_TASK⟩).2.current_state = EXECUTING_TASK ∧
    (processCommand ⟨7⟩).2.current_state = 7 ∧
    (completeTask ⟨WAITING_FOR_COMMAND⟩).2.current_state = WAITING_FOR_COMMAND ∧
    (resetState ⟨-1⟩).2.current_state = -1 ∧
    (processCommand ⟨WAITING_FOR_COMMAND⟩).2.current_state = WAITING_FOR_COMMAND ∧
    (completeTask ⟨COMPLETED_TASK⟩).2.current_state = COMPLETED_TASK :=
  ⟨(transition_off_source_keeps_state ⟨EXECUTING_TASK⟩).1 (by decide),
   (transition_off_source_keeps_state ⟨7⟩).2.1 (by decide),
   (transition_off_source_keeps_state ⟨WAITING_FOR_COMMAND⟩).2.2.1 (by decide),
   (transition_off_source_keeps_state ⟨-1⟩).2.2.2.1 (by decide),
   (transition_off_source_keeps_state ⟨WAITING_FOR_COMMAND⟩).2.2.2.2.1 rfl,
   (transition_off_source_keeps_state ⟨COMPLETED_TASK⟩).2.2.2.2.2 rfl⟩

/-- C3: whatever state the device held before, initGpuDevice leaves it in
WAITING_FOR_COMMAND. -/
theorem initGpuDevice_state (gpu : GpuDevice) :
    (initGpuDevice gpu).2.current_state = WAITING_FOR_COMMAND := rfl

/-- C4: on a device in WAITING_FOR_COMMAND (for one, the device initGpuDevice
has just written), receiveCommand, processCommand, completeTask, resetState in
that order pass through PROCESSING_COMMAND, EXECUTING_TASK and COMPLETED_TASK
and end in WAITING_FOR_COMMAND. -/
theorem full_cycle_returns_to_waiting (gpu before : GpuDevice)
    (h : gpu.current_state = WAITING_FOR_COMMAND ∨ gpu = (initGpuDevice before).2) :
    (receiveCommand gpu).2.current_state = PROCESSING_COMMAND ∧
    (processCommand (receiveCommand gpu).2).2.current_state = EXECUTING_TASK ∧
    (completeTask (processCommand (receiveCommand gpu).2).2).2.current_state
      = COMPLETED_TASK ∧
    (resetState (completeTask (processCommand (receiveCommand gpu).2).2).2).2.current_state
      = WAITING_FOR_COMMAND := by
  have hw : gpu.current_state = WAITING_FOR_COMMAND := by
    rcases h with h | h
    · exact h
    · rw [h]; rfl
  simp [receiveCommand, processCommand, completeTask, resetState, hw]

theorem full_cycle_returns_to_waiting_witness :
    (receiveCommand (initGpuDevice ⟨COMPLETED_TASK⟩).2).2.current_state
      = PROCESSING_COMMAND ∧
    (processCommand (receiveCommand (initGpuDevice ⟨COMPLETED_TASK⟩).2).2).2.current_state
      = EXECUTING_TASK ∧
    (completeTask (processCommand (receiveCommand
      (initGpuDevice ⟨COMPLETED_TASK⟩).2).2).2).2.current_state = COMPLETED_TASK ∧
    (resetState (completeTask (processCommand (receiveCommand
      (initGpuDevice ⟨COMPLETED_TASK⟩).2).2).2).2).2.current_state = WAITING_FOR_COMMAND :=
  full_cycle_returns_to_waiting (initGpuDevice ⟨COMPLETED_TASK⟩).2 ⟨COMPLETED_TASK⟩
    (Or.inr rfl)

/-! ## Closed set of states -/

/-- C5: after every initial segment of every finite sequence of transition
calls on an initialised device, the state is one of WAITING_FOR_COMMAND,
PROCESSING_COMMAND, EXECUTING_TASK, COMPLETED_TASK. -/
theorem state_closed_under_calls (before : GpuDevice) (calls : List Call) (n : Nat) :
    (runCalls (calls.take n) (initGpuDevice before).2).current_state = WAITING_FOR_COMMAND ∨
    (runCalls (calls.take n) (initGpuDevice before).2).current_state = PROCESSING_COMMAND ∨
    (runCalls (calls.take n) (initGpuDevice before).2).current_state = EXECUTING_TASK ∨
    (runCalls (calls.take n) (initGpuDevice before).2).current_state = COMPLETED_TASK :=
  runCalls_isEnumerator (calls.take n) (initGpuDevice before).2 (Or.inl rfl)

/-- C6: isValidState answers true on every device reached from initGpuDevice by
a finite sequence of transition calls, and on every device whose state is one
of the four enumerators. -/
theorem isValidState_true_on_enumerators :
    (∀ (before : GpuDevice) (calls : List Call),
      (isValidState (runCalls calls (initGpuDevice before).2)).1 = true) ∧
    (∀ gpu : GpuDevice,
      (gpu.current_state = WAITING_FOR_COMMAND ∨ gpu.current_state = PROCESSING_COMMAND ∨
        gpu.current_state = EXECUTING_TASK ∨ gpu.current_state = COMPLETED_TASK) →
      (isValidState gpu).1 = true) := by
  have key : ∀ gpu : GpuDevice, IsEnumerator gpu.current_state →
      (isValidState gpu).1 = true := by
    intro gpu h
    rcases h with h | h | h | h <;> simp [isValidState, h]
  exact ⟨fun before calls =>
    key _ (runCalls_isEnumerator calls (initGpuDevice before).2 (Or.inl rfl)), key⟩

theorem isValidState_true_on_enumerators_witness :
    (isValidState (runCalls [Call.receiveCommand, Call.resetState, Call.processCommand]
      (initGpuDevice ⟨9⟩).2)).1 = true ∧
    (isValidState ⟨EXECUTING_TASK⟩).1 = true :=
  ⟨isValidState_true_on_enumerators.1 ⟨9⟩
      [Call.receiveCommand, Call.resetState, Call.processCommand],
   isValidState_true_on_enumerators.2 ⟨EXECUTING_TASK⟩ (Or.inr (Or.inr (Or.inl rfl)))⟩

/-! ## What the caller is told -/

/-- C7, as stated, fails: the four transitions return `void`, so the caller
receives the same value whether or not the device moved; no reading of that
value as a success flag can agree with "the device was in the source state".
Shown for each operation on the two devices in WAITING_FOR_COMMAND and
COMPLETED_TASK, one of which is in the source state and one of which is not. -/
theorem transition_signal_absent :
    (¬ ∃ signal : Unit → Bool, ∀ gpu ∈ [GpuDevice.mk WAITING_FOR_COMMAND, ⟨COMPLETED_TASK⟩],
      (signal (receiveCommand gpu).1 = true ↔ gpu.current_state = WAITING_FOR_COMMAND)) ∧
    (¬ ∃ signal : Unit → Bool, ∀ gpu ∈ [GpuDevice.mk PROCESSING_COMMAND, ⟨COMPLETED_TASK⟩],
      (signal (processCommand gpu).1 = true ↔ gpu.current_state = PROCESSING_COMMAND)) ∧
    (¬ ∃ signal : Unit → Bool, ∀ gpu ∈ [GpuDevice.mk EXECUTING_TASK, ⟨COMPLETED_TASK⟩],
      (signal (completeTask gpu).1 = true ↔ gpu.current_state = EXECUTING_TASK)) ∧
    (¬ ∃ signal : Unit → Bool, ∀ gpu ∈ [GpuDevice.mk COMPLETED_TASK, ⟨WAITING_FOR_COMMAND⟩],
      (signal (resetState gpu).1 = true ↔ gpu.current_state = COMPLETED_TASK)) := by
  refine ⟨?_, ?_, ?_, ?_⟩ <;>
  · rintro ⟨signal, hs⟩
    have h1 := hs _ (List.mem_cons_self _ _)
    have h2 := hs _ (List.mem_cons_of_mem _ (List.mem_cons_self _ _))
    have e : signal () = true := h1.mpr rfl
    have h3 := h2.mp e
    revert h3
    decide

/-- C7, amended: a transition hands nothing back to the caller (its result is
the unit value); the outcome shows in the device alone: the state after the
call differs from the state before exactly when the device was in the required
source state, and it is then the target state; the state is unchanged exactly
when the device was not in the source state. -/
theorem transition_outcome_in_state_only (gpu : GpuDevice) :
    ((receiveCommand gpu).1 = () ∧
      ((receiveCommand gpu).2.current_state ≠ gpu.current_state ↔
        gpu.current_state = WAITING_FOR_COMMAND) ∧
      ((receiveCommand gpu).2.current_state ≠ gpu.current_state →
        (receiveCommand gpu).2.current_state = PROCESSING_COMMAND) ∧
      ((receiveCommand gpu).2.current_state = gpu.current_state ↔
        gpu.current_state ≠ WAITING_FOR_COMMAND)) ∧
    ((processCommand gpu).1 = () ∧
      ((processCommand gpu).2.current_state ≠ gpu.current_state ↔
        gpu.current_state = PROCESSING_COMMAND) ∧
      ((processCommand gpu).2.current_state ≠ gpu.current_state →
        (processCommand gpu).2.current_state = EXECUTING_TASK) ∧
      ((processCommand gpu).2.current_state = gpu.current_state ↔
        gpu.current_state ≠ PROCESSING_COMMAND)) ∧
    ((completeTask gpu).1 = () ∧
      ((completeTask gpu).2.current_state ≠ gpu.current_state ↔
        gpu.current_state = EXECUTING_TASK) ∧
      ((completeTask gpu).2.current_state ≠ gpu.current_state →
        (completeTask gpu).2.current_state = COMPLETED_TASK) ∧
      ((completeTask gpu).2.current_state = gpu.current_state ↔
        gpu.current_state ≠ EXECUTING_TASK)) ∧
    ((resetState gpu).1 = () ∧
      ((resetState gpu).2.current_state ≠ gpu.current_state ↔
        gpu.current_state = COMPLETED_TASK) ∧
      ((resetState gpu).2.current_state ≠ gpu.current_state →
        (resetState gpu).2.current_state = WAITING_FOR_COMMAND) ∧
      ((resetState gpu).2.current_state = gpu.current_state ↔
        gpu.current_state ≠ COMPLETED_TASK)) := by
  refine ⟨?_, ?_, ?_, ?_⟩
  · by_cases h : gpu.current_state = (0 : Int) <;>
      simp [receiveCommand, h, WAITING_FOR_COMMAND, PROCESSING_COMMAND]
  · by_cases h : gpu.current_state = (1 : Int) <;>
      simp [processCommand, h, PROCESSING_COMMAND, EXECUTING_TASK]
  · by_cases h : gpu.current_state = (2 : Int) <;>
      simp [completeTask, h, EXECUTING_TASK, COMPLETED_TASK]
  · by_cases h : gpu.current_state = (3 : Int) <;>
      simp [resetState, h, COMPLETED_TASK, WAITING_FOR_COMMAND]

theorem transition_outcome_in_state_only_witness :
    (receiveCommand ⟨WAITING_FOR_COMMAND⟩).2.current_state = PROCESSING_COMMAND ∧
    (processCommand ⟨PROCESSING_COMMAND⟩).2.current_state = EXECUTING_TASK ∧
    (completeTask ⟨EXECUTING_TASK⟩).2.current_state = COMPLETED_TASK ∧
    (resetState ⟨COMPLETED_TASK⟩).2.current_state = WAITING_FOR_COMMAND :=
  ⟨(transition_outcome_in_state_only ⟨WAITING_FOR_COMMAND⟩).1.2.2.1 (by decide),
   (transition_outcome_in_state_only ⟨PROCESSING_COMMAND⟩).2.1.2.2.1 (by decide),
   (transition_outcome_in_state_only ⟨EXECUTING_TASK⟩).2.2.1.2.2.1 (by decide),
   (transition_outcome_in_state_only ⟨COMPLETED_TASK⟩).2.2.2.2.2.1 (by decide)⟩

/-! ## Completed until reset -/

/-- C8: on a device in COMPLETED_TASK, after every call of every finite
sequence drawn from receiveCommand, processCommand and completeTask the device
is still in COMPLETED_TASK, and a single transition call changes the state of
such a device exactly when it is resetState. -/
theorem completed_terminal_until_reset (gpu : GpuDevice)
    (h : gpu.current_state = COMPLETED_TASK) :
    (∀ calls : List Call, Call.resetState ∉ calls → ∀ n : Nat,
      (runCalls (calls.take n) gpu).current_state = COMPLETED_TASK) ∧
    (∀ c : Call, (c.exec gpu).current_state ≠ gpu.current_state ↔ c = Call.resetState) := by
  constructor
  · intro calls hn n
    exact runCalls_completed_of_no_reset (calls.take n) gpu h
      (fun hm => hn (List.mem_of_mem_take hm))
  · intro c
    constructor
    · intro hne
      by_contra hc
      exact hne ((exec_completed_of_ne_reset c gpu h hc).trans h.symm)
    · rintro rfl
      simp [Call.exec, GpuDeviceC.resetState, h, COMPLETED_TASK, WAITING_FOR_COMMAND]

theorem completed_terminal_until_reset_witness :
    (∀ calls : List Call, Call.resetState ∉ calls → ∀ n : Nat,
      (runCalls (calls.take n) ⟨COMPLETED_TASK⟩).current_state = COMPLETED_TASK) ∧
    (∀ c : Call, (c.exec ⟨COMPLETED_TASK⟩).current_state ≠ COMPLETED_TASK ↔
      c = Call.resetState) :=
  completed_terminal_until_reset ⟨COMPLETED_TASK⟩ rfl

/-! ## The validity query -/

/-- C9: isValidState is a pure query: the device after the call is the device
before it (so current_state is unchanged), and two devices with the same
current_state get the same answer. -/
theorem isValidState_pure (gpu other : GpuDevice) :
    (isValidState gpu).2 = gpu ∧
    (isValidState gpu).2.current_state = gpu.current_state ∧
    (gpu.current_state = other.current_state →
      (isValidState gpu).1 = (isValidState other).1) := by
  refine ⟨rfl, rfl, ?_⟩
  intro h
  simp [isValidState, h]

theorem isValidState_pure_witness :
    (isValidState ⟨5⟩).2 = ⟨5⟩ ∧
    (isValidState ⟨5⟩).2.current_state = 5 ∧
    (isValidState ⟨5⟩).1 = (isValidState (GpuDevice.mk (2 + 3))).1 :=
  ⟨(isValidState_pure ⟨5⟩ ⟨2 + 3⟩).1, (isValidState_pure ⟨5⟩ ⟨2 + 3⟩).2.1,
   (isValidState_pure ⟨5⟩ ⟨2 + 3⟩).2.2 (by decide)⟩

/-- C10: with the state field a raw integer, isValidState answers true exactly
when the value is 0, 1, 2 or 3, which are the values of the enumerators
WAITING_FOR_COMMAND, PROCESSING_COMMAND, EXECUTING_TASK, COMPLETED_TASK, and
false for every other raw value. -/
theorem isValidState_iff_enumerator (raw : Int) :
    (WAITING_FOR_COMMAND = 0 ∧ PROCESSING_COMMAND = 1 ∧
      EXECUTING_TASK = 2 ∧ COMPLETED_TASK = 3) ∧
    ((isValidState ⟨raw⟩).1 = true ↔ (raw = 0 ∨ raw = 1 ∨ raw = 2 ∨ raw = 3)) ∧
    ((isValidState ⟨raw⟩).1 = true ↔ (0 ≤ raw ∧ raw ≤ 3)) ∧
    (¬ (raw = 0 ∨ raw = 1 ∨ raw = 2 ∨ raw = 3) → (isValidState ⟨raw⟩).1 = false) := by
  have key : (isValidState ⟨raw⟩).1 = true ↔ (raw = 0 ∨ raw = 1 ∨ raw = 2 ∨ raw = 3) := by
    simp [isValidState, WAITING_FOR_COMMAND, PROCESSING_COMMAND, EXECUTING_TASK,
      COMPLETED_TASK, or_assoc]
  refine ⟨⟨rfl, rfl, rfl, rfl⟩, key, ?_, ?_⟩
  · rw [key]; omega
  · intro hn
    cases hv : (isValidState ⟨raw⟩).1
    · rfl
    · exact absurd (key.mp hv) hn

theorem isValidState_iff_enumerator_witness :
    (isValidState ⟨4⟩).1 = false ∧ (isValidState ⟨-1⟩).1 = false :=
  ⟨(isValidState_iff_enumerator 4).2.2.2 (by decide),
   (isValidState_iff_enumerator (-1)).2.2.2 (by decide)⟩

/-! ## Order of the steps -/

theorem runCalls_completed_sublist (calls : List Call) (gpu : GpuDevice)
    (h : (runCalls calls gpu).current_state = COMPLETED_TASK) :
    (gpu.current_state = WAITING_FOR_COMMAND →
      [Call.receiveCommand, Call.processCommand, Call.completeTask].Sublist calls) ∧
    (gpu.current_state = PROCESSING_COMMAND →
      [Call.processCommand, Call.completeTask].Sublist calls) ∧
    (gpu.current_state = EXECUTING_TASK → [Call.completeTask].Sublist calls) := by
  induction calls generalizing gpu with
  | nil =>
    rw [runCalls_nil] at h
    refine ⟨?_, ?_, ?_⟩ <;> intro h0 <;> rw [h0] at h <;> exact absurd h (by decide)
  | cons c cs ih =>
    rw [runCalls_cons] at h
    obtain ⟨ih0, ih1, ih2⟩ := ih (c.exec gpu) h
    refine ⟨?_, ?_, ?_⟩ <;> intro h0
    · cases c
      · exact (ih1 (by simp [Call.exec, GpuDeviceC.receiveCommand, h0])).cons₂ _
      · exact (ih0 (by simp [Call.exec, GpuDeviceC.processCommand, h0,
          WAITING_FOR_COMMAND, PROCESSING_COMMAND])).cons _
      · exact (ih0 (by simp [Call.exec, GpuDeviceC.completeTask, h0,
          WAITING_FOR_COMMAND, EXECUTING_TASK])).cons _
      · exact (ih0 (by simp [Call.exec, GpuDeviceC.resetState, h0,
          WAITING_FOR_COMMAND, COMPLETED_TASK])).cons _
    · cases c
      · exact (ih1 (by simp [Call.exec, GpuDeviceC.receiveCommand, h0,
          WAITING_FOR_COMMAND, PROCESSING_COMMAND])).cons _
      · exact (ih2 (by simp [Call.exec, GpuDeviceC.processCommand, h0])).cons₂ _
      · exact (ih1 (by simp [Call.exec, GpuDeviceC.completeTask, h0,
          PROCESSING_COMMAND, EXECUTING_TASK])).cons _
      · exact (ih1 (by simp [Call.exec, GpuDeviceC.resetState, h0,
          PROCESSING_COMMAND, COMPLETED_TASK])).cons _
    · cases c
      · exact (ih2 (by simp [Call.exec, GpuDeviceC.receiveCommand, h0,
          WAITING_FOR_COMMAND, EXECUTING_TASK])).cons _
      · exact (ih2 (by simp [Call.exec, GpuDeviceC.processCommand, h0,
          PROCESSING_COMMAND, EXECUTING_TASK])).cons _
      · exact (List.nil_sublist cs).cons₂ _
      · exact (ih2 (by simp [Call.exec, GpuDeviceC.resetState, h0,
          EXECUTING_TASK, COMPLETED_TASK])).cons _

/-- C11: when a finite sequence of transition calls on an initialised device
ends with the device in COMPLETED_TASK, the sequence contains a receiveCommand,
a later processCommand and a later completeTask: these three calls, in this
order, are a subsequence of it. -/
theorem completed_needs_all_steps (before : GpuDevice) (calls : List Call)
    (h : (runCalls calls (initGpuDevice before).2).current_state = COMPLETED_TASK) :
    [Call.receiveCommand, Call.processCommand, Call.completeTask].Sublist calls :=
  (runCalls_completed_sublist calls (initGpuDevice before).2 h).1 rfl

theorem completed_needs_all_steps_witness :
    (runCalls [Call.receiveCommand, Call.resetState, Call.processCommand,
        Call.processCommand, Call.completeTask, Call.receiveCommand]
      (initGpuDevice ⟨5⟩).2).current_state = COMPLETED_TASK ∧
    [Call.receiveCommand, Call.processCommand, Call.completeTask].Sublist
      [Call.receiveCommand, Call.resetState, Call.processCommand,
        Call.processCommand, Call.completeTask, Call.receiveCommand] :=
  ⟨by decide, completed_needs_all_steps ⟨5⟩ _ (by decide)⟩

/-! ## Shape of the transition graph -/

/-- C12: in each of the four states exactly one of the four transition calls
changes the state and the other three leave it as it was; a call that changes
the state moves it to the cyclic successor, the enumerator of ordinal
(s + 1) mod 4, so a single call either keeps the state or advances it by one
step, never skipping a state and never moving backwards. -/
theorem one_call_one_step (gpu : GpuDevice)
    (h : gpu.current_state = WAITING_FOR_COMMAND ∨ gpu.current_state = PROCESSING_COMMAND ∨
      gpu.current_state = EXECUTING_TASK ∨ gpu.current_state = COMPLETED_TASK) :
    (∃ c : Call, (c.exec gpu).current_state ≠ gpu.current_state ∧
      ∀ d : Call, d ≠ c → (d.exec gpu).current_state = gpu.current_state) ∧
    (∀ c : Call, (c.exec gpu).current_state ≠ gpu.current_state →
      (c.exec gpu).current_state = (gpu.current_state + 1) % 4) ∧
    (∀ c : Call, (c.exec gpu).current_state = gpu.current_state ∨
      (c.exec gpu).current_state = (gpu.current_state + 1) % 4) := by
  obtain ⟨s⟩ := gpu
  simp only at h
  rcases h with rfl | rfl | rfl | rfl
  · exact ⟨⟨Call.receiveCommand, by decide, fun d hd => by cases d <;> revert hd <;> decide⟩,
      fun c => by cases c <;> decide, fun c => by cases c <;> decide⟩
  · exact ⟨⟨Call.processCommand, by decide, fun d hd => by cases d <;> revert hd <;> decide⟩,
      fun c => by cases c <;> decide, fun c => by cases c <;> decide⟩
  · exact ⟨⟨Call.completeTask, by decide, fun d hd => by cases d <;> revert hd <;> decide⟩,
      fun c => by cases c <;> decide, fun c => by cases c <;> decide⟩
  · exact ⟨⟨Call.resetState, by decide, fun d hd => by cases d <;> revert hd <;> decide⟩,
      fun c => by cases c <;> decide, fun c => by cases c <;> decide⟩

theorem one_call_one_step_witness :
    (∃ c : Call, (c.exec ⟨COMPLETED_TASK⟩).current_state ≠ COMPLETED_TASK ∧
      ∀ d : Call, d ≠ c → (d.exec ⟨COMPLETED_TASK⟩).current_state = COMPLETED_TASK) ∧
    (∀ c : Call, (c.exec ⟨COMPLETED_TASK⟩).current_state ≠ COMPLETED_TASK →
      (c.exec ⟨COMPLETED_TASK⟩).current_state = (COMPLETED_TASK + 1) % 4) ∧
    (∀ c : Call, (c.exec ⟨COMPLETED_TASK⟩).current_state = COMPLETED_TASK ∨
      (c.exec ⟨COMPLETED_TASK⟩).current_state = (COMPLETED_TASK + 1) % 4) :=
  one_call_one_step ⟨COMPLETED_TASK⟩ (Or.inr (Or.inr (Or.inr rfl)))

/-- C13: each transition is idempotent: for every device, whatever raw value
its state holds, calling receiveCommand, processCommand, completeTask or
resetState twice in a row leaves the device as one call leaves it. -/
theorem transition_idempotent (gpu : GpuDevice) :
    (receiveCommand (receiveCommand gpu).2).2 = (receiveCommand gpu).2 ∧
    (processCommand (processCommand gpu).2).2 = (processCommand gpu).2 ∧
    (completeTask (completeTask gpu).2).2 = (completeTask gpu).2 ∧
    (resetState (resetState gpu).2).2 = (resetState gpu).2 ∧
    (∀ c : Call, (c.exec (c.exec gpu)).current_state = (c.exec gpu).current_state) := by
  have h1 : (receiveCommand (receiveCommand gpu).2).2 = (receiveCommand gpu).2 := by
    by_cases h : gpu.current_state = (0 : Int) <;>
      simp [receiveCommand, h, WAITING_FOR_COMMAND, PROCESSING_COMMAND]
  have h2 : (processCommand (processCommand gpu).2).2 = (processCommand gpu).2 := by
    by_cases h : gpu.current_state = (1 : Int) <;>
      simp [processCommand, h, PROCESSING_COMMAND, EXECUTING_TASK]
  have h3 : (completeTask (completeTask gpu).2).2 = (completeTask gpu).2 := by
    by_cases h : gpu.current_state = (2 : Int) <;>
      simp [completeTask, h, EXECUTING_TASK, COMPLETED_TASK]
  have h4 : (resetState (resetState gpu).2).2 = (resetState gpu).2 := by
    by_cases h : gpu.current_state = (3 : Int) <;>
      simp [resetState, h, COMPLETED_TASK, WAITING_FOR_COMMAND]
  refine ⟨h1, h2, h3, h4, fun c => ?_⟩
  cases c
  · exact congrArg GpuDevice.current_state h1
  · exact congrArg GpuDevice.current_state h2
  · exact congrArg GpuDevice.current_state h3
  · exact congrArg GpuDevice.current_state h4

/-- C14: each of the four enumerators is the state of an initialised device
after some finite sequence of transition calls, and from each of the four
states some sequence of at most three transition calls (one that is not empty
can always be chosen) ends with the device in WAITING_FOR_COMMAND. -/
theorem all_states_reachable_and_return (s : GpuState)
    (h : s = WAITING_FOR_COMMAND ∨ s = PROCESSING_COMMAND ∨
      s = EXECUTING_TASK ∨ s = COMPLETED_TASK) :
    (∃ calls : List Call, ∀ before : GpuDevice,
      (runCalls calls (initGpuDevice before).2).current_state = s) ∧
    (∃ calls : List Call, calls.length ≤ 3 ∧
      (runCalls calls ⟨s⟩).current_state = WAITING_FOR_COMMAND) ∧
    (∃ calls : List Call, calls ≠ [] ∧ calls.length ≤ 3 ∧
      (runCalls calls ⟨s⟩).current_state = WAITING_FOR_COMMAND) := by
  rcases h with rfl | rfl | rfl | rfl
  · exact ⟨⟨[], fun _ => rfl⟩, ⟨[], by decide, rfl⟩,
      ⟨[Call.processCommand], by decide, by decide, by decide⟩⟩
  · exact ⟨⟨[Call.receiveCommand], fun _ => rfl⟩,
      ⟨[Call.processCommand, Call.completeTask, Call.resetState], by decide, by decide⟩,
      ⟨[Call.processCommand, Call.completeTask, Call.resetState],
        by decide, by decide, by decide⟩⟩
  · exact ⟨⟨[Call.receiveCommand, Call.processCommand], fun _ => rfl⟩,
      ⟨[Call.completeTask, Call.resetState], by decide, by decide⟩,
      ⟨[Call.completeTask, Call.resetState], by decide, by decide, by decide⟩⟩
  · exact ⟨⟨[Call.receiveCommand, Call.processCommand, Call.completeTask],
        fun _ => rfl⟩,
      ⟨[Call.resetState], by decide, by decide⟩,
      ⟨[Call.resetState], by decide, by decide, by decide⟩⟩

theorem all_states_reachable_and_return_witness :
    (∃ calls : List Call, ∀ before : GpuDevice,
      (runCalls calls (initGpuDevice before).2).current_state = EXECUTING_TASK) ∧
    (∃ calls : List Call, calls.length ≤ 3 ∧
      (runCalls calls ⟨EXECUTING_TASK⟩).current_state = WAITING_FOR_COMMAND) ∧
    (∃ calls : List Call, calls ≠ [] ∧ calls.length ≤ 3 ∧
      (runCalls calls ⟨EXECUTING_TASK⟩).current_state = WAITING_FOR_COMMAND) :=
  all_states_reachable_and_return EXECUTING_TASK (Or.inr (Or.inr (Or.inl rfl)))

end GpuDeviceC
